import Mathlib

/-!
Verification of the MediConnect doctor-finder application (myapp1/views.py):
a shallow embedding of its record search, conversational query interpreter,
avatar fallback chain, session history handling and record CRUD, together
with theorems settling the specified properties.

External collaborators (the Gemini text-generation client, Django's static
file storage, Python's `json.loads`, the MD5 digest and the randomized
profile-image picker) are modelled as oracle parameters gathered in `Ext`;
Python exceptions are modelled with `Except`, Python `None`-able values with
`Option`, and decimal database fields with `ℚ`.
-/

namespace MediConnect

/-- A row of the `Contact` model (myapp1/models.py): a doctor record. -/
structure Contact where
  id : Nat
  full_name : String
  specialty : String
  city : String
  address : String
  rating : ℚ
  fees : ℚ
  phone : String
deriving DecidableEq, Repr

/-- The optional filter fields shared by the recommendation form
(`recommend`) and the AI-extracted search (`search_doctors`). -/
structure SearchFilter where
  specialty : Option String
  city : Option String
  max_fees : Option ℚ
  min_rating : Option ℚ
deriving DecidableEq, Repr

/-- One conversation turn stored in `request.session['chat_history']`
(a dict with keys `role` and `content`). -/
structure Turn where
  role : String
  content : String
deriving DecidableEq, Repr

/-- Django's `field__icontains=q`: case-insensitive substring test. -/
def icontains (field q : String) : Bool :=
  decide ((q.toList.map Char.toLower) <:+: (field.toList.map Char.toLower))

/-- Python truthiness of an optional string (`if filters.get("specialty"):`):
`None` and the empty string are falsy. -/
def truthyStr : Option String → Bool
  | none => false
  | some s => s ≠ ""

/-- Python truthiness of an optional numeric (`if filters.get("max_fees"):`):
`None` and zero are falsy. -/
def truthyNum : Option ℚ → Bool
  | none => false
  | some q => q ≠ 0

/-- `if specialty: results = results.filter(specialty__icontains=specialty)`. -/
def applySpecialty (f : SearchFilter) (l : List Contact) : List Contact :=
  if truthyStr f.specialty then l.filter fun c => icontains c.specialty (f.specialty.getD "")
  else l

/-- `if city: results = results.filter(city__icontains=city)`. -/
def applyCity (f : SearchFilter) (l : List Contact) : List Contact :=
  if truthyStr f.city then l.filter fun c => icontains c.city (f.city.getD "") else l

/-- `if max_fees: results = results.filter(fees__lte=max_fees)`. -/
def applyMaxFees (f : SearchFilter) (l : List Contact) : List Contact :=
  if truthyNum f.max_fees then l.filter fun c => decide (c.fees ≤ f.max_fees.getD 0) else l

/-- `if min_rating: results = results.filter(rating__gte=min_rating)`. -/
def applyMinRating (f : SearchFilter) (l : List Contact) : List Contact :=
  if truthyNum f.min_rating then l.filter fun c => decide (f.min_rating.getD 0 ≤ c.rating) else l

/-- The sequential filter composition used by both `recommend` and
`search_doctors`. -/
def filter_contacts (f : SearchFilter) (l : List Contact) : List Contact :=
  applyMinRating f (applyMaxFees f (applyCity f (applySpecialty f l)))

/-- The comparison realised by `order_by('-rating', 'fees')`: higher rating
first, ties broken by lower fees first. -/
def rankLE (a b : Contact) : Bool :=
  decide (b.rating < a.rating) || (decide (a.rating = b.rating) && decide (a.fees ≤ b.fees))

/-- `results.order_by('-rating', 'fees')` on a fetched list of rows. -/
def order_by_rating_fees (l : List Contact) : List Contact :=
  l.mergeSort rankLE

/-- The result list built by the `recommend` view for a submitted
recommendation form (filter then order, no cap). -/
def recommend_results (f : SearchFilter) (l : List Contact) : List Contact :=
  order_by_rating_fees (filter_contacts f l)

/-- The pairwise ordering guarantee of `order_by('-rating', 'fees')`,
as a proposition on adjacent-or-later pairs of the result. -/
def rankOrder (a b : Contact) : Prop :=
  b.rating ≤ a.rating ∧ (a.rating = b.rating → a.fees ≤ b.fees)

/-- Parsed JSON values as produced by Python's `json.loads`. -/
inductive Json where
  | null
  | bool (b : Bool)
  | num (q : ℚ)
  | str (s : String)
  | arr (xs : List Json)
  | obj (kvs : List (String × Json))

/-- Python's `str()` rendering of a parsed JSON value, as interpolated by
the f-strings of views.py. Scalars render as Python renders them; the
`repr` of a nested container is abbreviated to a constant marker, which no
specified behavior observes (the message and filter values of every
specified path are scalars). -/
def jstr : Json → String
  | .null => "None"
  | .bool true => "True"
  | .bool false => "False"
  | .num q => if q.den = 1 then toString q.num else toString q
  | .str s => s
  | .arr _ => "[...]"
  | .obj _ => "\x7b...\x7d"

/-- The Python runtime type name of a parsed JSON value, as it appears in an
`AttributeError` message. -/
def pyTypeName : Json → String
  | .null => "NoneType"
  | .bool _ => "bool"
  | .num q => if q.den = 1 then "int" else "float"
  | .str _ => "str"
  | .arr _ => "list"
  | .obj _ => "dict"

/-- The message of the `AttributeError` raised by `value.get(...)` when
`value` is not a dict. -/
def attrErrorGet (j : Json) : String :=
  "\x27" ++ pyTypeName j ++ "\x27 object has no attribute \x27get\x27"

/-- Python `value.get(key)`: `None`-able lookup on a dict, `AttributeError`
on anything else. -/
def jGet (j : Json) (k : String) : Except String (Option Json) :=
  match j with
  | .obj kvs => .ok ((kvs.find? fun p => p.1 == k).map (·.2))
  | _ => .error (attrErrorGet j)

/-- Python truthiness of the result of `dict.get` (`None` when missing). -/
def jTruthy : Option Json → Bool
  | none => false
  | some .null => false
  | some (.bool b) => b
  | some (.num q) => q ≠ 0
  | some (.str s) => s ≠ ""
  | some (.arr xs) => !xs.isEmpty
  | some (.obj kvs) => !kvs.isEmpty

/-- Python `value == "s"` between a `dict.get` result and a string literal:
true only for exactly that string. -/
def jEqStr (o : Option Json) (s : String) : Bool :=
  match o with
  | some (.str t) => t == s
  | _ => false

/-- Coercion of a JSON value to the numeric bound of `fees__lte` /
`rating__gte`; Python bools are ints, anything non-numeric raises when the
query is evaluated. (Numeric strings, which the database layer would
coerce, are not modelled; no claim depends on them.) -/
def asNum : Json → Except String ℚ
  | .num q => .ok q
  | .bool b => .ok (if b then 1 else 0)
  | j => .error ("could not convert " ++ pyTypeName j ++ " to a number")

/-- The code-fence stripping `parse_ai_response` applies before
`json.loads`: strip, cut out a leading ```json-tagged or bare ``` fence,
strip again. -/
def clean_response (response_text : String) : String :=
  let cleaned := response_text.trim
  let cleaned :=
    if cleaned.startsWith "```json" then
      (((cleaned.splitOn "```json").getD 1 "").splitOn "```").getD 0 ""
    else if cleaned.startsWith "```" then
      (((cleaned.splitOn "```").getD 1 "").splitOn "```").getD 0 ""
    else cleaned
  cleaned.trim

/-- `parse_ai_response`: fence-strip then `json.loads` (modelled by the
oracle `jp`, `none` standing for `JSONDecodeError`); a decode error falls
back to a chat dict carrying the raw reply text. A reply that decodes is
returned as-is, whatever its shape. -/
def parse_ai_response (jp : String → Option Json) (response_text : String) : Json :=
  match jp (clean_response response_text) with
  | some data => data
  | none => .obj [("action", .str "chat"), ("message", .str response_text)]

/-- The filter composition of `search_doctors` on the AI-extracted dict:
each truthy key contributes a predicate; `.get` on a non-dict raises, as
does a non-numeric fee or rating bound. -/
def jfilter_contacts (filters : Json) (l : List Contact) : Except String (List Contact) :=
  match jGet filters "specialty" with
  | .error e => .error e
  | .ok sp =>
    let qs :=
      if jTruthy sp then l.filter fun c => icontains c.specialty (jstr (sp.getD .null)) else l
    match jGet filters "city" with
    | .error e => .error e
    | .ok ct =>
      let qs :=
        if jTruthy ct then qs.filter fun c => icontains c.city (jstr (ct.getD .null)) else qs
      match jGet filters "max_fees" with
      | .error e => .error e
      | .ok mf =>
        match
          if jTruthy mf then
            (asNum (mf.getD .null)).map fun q => qs.filter fun c => decide (c.fees ≤ q)
          else .ok qs with
        | .error e => .error e
        | .ok qs =>
          match jGet filters "min_rating" with
          | .error e => .error e
          | .ok mr =>
            match
              if jTruthy mr then
                (asNum (mr.getD .null)).map fun q => qs.filter fun c => decide (q ≤ c.rating)
              else .ok qs with
            | .error e => .error e
            | .ok qs => .ok qs

/-- `search_doctors`: filter by the AI dict, order by `-rating, fees`, cap
at 10 (`[:10]`). -/
def search_doctors (store : List Contact) (filters : Json) : Except String (List Contact) :=
  match jfilter_contacts filters store with
  | .error e => .error e
  | .ok qs => .ok ((order_by_rating_fees qs).take 10)

/-- The `search` view: the union (queryset OR) of three `icontains` filters
over full name, specialty and city. -/
def search_view (store : List Contact) (query : String) : List Contact :=
  store.filter fun c =>
    icontains c.full_name query || icontains c.specialty query || icontains c.city query

/-- The mutable fields posted through `CreateContactForm`. -/
structure ContactFields where
  full_name : String
  specialty : String
  city : String
  address : String
  rating : ℚ
  fees : ℚ
  phone : String
deriving DecidableEq, Repr

/-- `Contact.objects.get(id=id)` without the exception: the row, if any. -/
def db_get (store : List Contact) (id : Nat) : Option Contact :=
  store.find? fun c => c.id == id

/-- `update_contact` on POST with a valid form: fetch by id (raising
`DoesNotExist` when absent), set the posted fields, save. -/
def update_contact (store : List Contact) (id : Nat) (fields : ContactFields) :
    Except String (List Contact) :=
  match db_get store id with
  | none => .error "Contact matching query does not exist."
  | some _ => .ok (store.map fun c =>
      if c.id = id then
        { c with full_name := fields.full_name, specialty := fields.specialty,
                 city := fields.city, address := fields.address,
                 rating := fields.rating, fees := fields.fees, phone := fields.phone }
      else c)

/-- `delete_contact`: fetch by id (raising `DoesNotExist` when absent) and
delete the row. -/
def delete_contact (store : List Contact) (id : Nat) : Except String (List Contact) :=
  match db_get store id with
  | none => .error "Contact matching query does not exist."
  | some _ => .ok (store.filter fun c => !(c.id == id))

/-- `contact_detail`: `get_object_or_404` (raising `Http404` when absent). -/
def contact_detail (store : List Contact) (id : Nat) : Except String Contact :=
  match db_get store id with
  | none => .error "Http404"
  | some c => .ok c

/-- The external collaborators, modelled as oracles: whether the Gemini
client initialised (`client`), `client.models.generate_content` (`gen`,
with errors standing for raised exceptions), `staticfiles_storage.url`
(`staticUrl`), `json.loads` (`jp`, with `none` standing for
`JSONDecodeError`), `hashlib.md5(...).hexdigest()` (`md5hex`) and the
randomized `get_random_profile_image` (`imgOf`). -/
structure Ext where
  client : Bool
  gen : String → Except String String
  staticUrl : String → Except String String
  jp : String → Option Json
  md5hex : String → String
  imgOf : String → String

/-- The fixed sample image set of the avatar fallback chain. -/
def sample_images : List String :=
  ["sample_images/proxy-image.jpeg", "sample_images/proxy-image (1).jpeg",
   "sample_images/proxy-image (2).jpeg", "sample_images/proxy-image (3).jpeg",
   "sample_images/proxy-image (4).jpeg", "sample_images/proxy-image (5).jpeg",
   "sample_images/proxy-image (6).jpeg", "sample_images/proxy-image (7).jpeg"]

/-- Value of one hexadecimal digit (an MD5 hex digest has only such). -/
def hexDigitVal (c : Char) : Nat :=
  if c.isDigit then c.toNat - 48
  else if 97 ≤ c.toNat ∧ c.toNat ≤ 102 then c.toNat - 87
  else if 65 ≤ c.toNat ∧ c.toNat ≤ 70 then c.toNat - 55
  else 0

/-- Python `int(s, 16)` on a hex digest. -/
def hexToNat (s : String) : Nat :=
  s.toList.foldl (fun n c => n * 16 + hexDigitVal c) 0

/-- `int(hashlib.md5(x.encode()).hexdigest(), 16) % 8`, the deterministic
sample-image index, with the digest supplied by the `md5hex` oracle. -/
def hashIndex (md5hex : String → String) (x : String) : Nat :=
  hexToNat (md5hex x) % 8

/-- The gender-classification prompt of `select_sample_image_by_gender`. -/
def gender_prompt (doctor_name description : String) : String :=
  "Based on the doctor\x27s name \"" ++ doctor_name ++ "\" and description \"" ++ description ++
  "\",\ndetermine the likely gender (male or female).\n\n" ++
  "Respond with ONLY a JSON object:\n" ++
  "\x7b\n    \"gender\": \"male\" or \"female\",\n    \"image_index\": 0-7 (select an index that matches the gender)\n\x7d\n\n" ++
  "For male doctors, prefer indices: 0, 1, 2, 3\n" ++
  "For female doctors, prefer indices: 4, 5, 6, 7\n\n" ++
  "Return ONLY valid JSON, nothing else."

/-- The avatar-style prompt of `generate_avatar_from_description`. -/
def style_prompt (description : String) : String :=
  "Based on this doctor description: \"" ++ description ++ "\"\n\n" ++
  "Generate avatar parameters in JSON format:\n" ++
  "\x7b\n    \"style\": \"choose one: adventurer, avataaars, bottts, personas, lorelei, micah, pixel-art\",\n" ++
  "    \"background_color\": \"hex color without # that matches personality\",\n" ++
  "    \"seed\": \"unique seed based on description\"\n\x7d\n\n" ++
  "Choose style based on:\n- adventurer: Professional, corporate\n- avataaars: Friendly, approachable\n" ++
  "- bottts: Tech-savvy, modern\n- personas: Artistic, creative\n- lorelei: Elegant, sophisticated\n" ++
  "- micah: Casual, relatable\n- pixel-art: Fun, young\n\n" ++
  "Return ONLY valid JSON, nothing else."

/-- The body of `select_sample_image_by_gender`'s `try` block: classify
gender via Gemini, fence-strip and parse the reply, and index the sample
set by `image_index % 8` (a missing key defaults to 0; a non-integer index
raises at `%` or at the list subscript). -/
def gender_select_attempt (ext : Ext) (doctor_name description : String) :
    Except String String :=
  match ext.gen (gender_prompt doctor_name description) with
  | .error e => .error e
  | .ok t =>
    match ext.jp (clean_response t) with
    | none => .error "Expecting value"
    | some params =>
      match jGet params "image_index" with
      | .error e => .error e
      | .ok idx =>
        match idx.getD (.num 0) with
        | .num q =>
          if q.den = 1 then .ok (sample_images.getD (q.num % 8).toNat "")
          else .error "list indices must be integers"
        | .bool b => .ok (sample_images.getD ((if b then (1 : ℤ) else 0) % 8).toNat "")
        | j => .error ("unsupported operand type for %: " ++ pyTypeName j)

/-- `select_sample_image_by_gender`: AI-assisted pick of a sample image,
with a deterministic MD5 pick when the client is absent or anything in the
attempt raises. -/
def select_sample_image_by_gender (ext : Ext) (doctor_name description : String) : String :=
  if !ext.client then
    sample_images.getD (hashIndex ext.md5hex doctor_name) ""
  else
    match gender_select_attempt ext doctor_name description with
    | .ok img => img
    | .error _ => sample_images.getD (hashIndex ext.md5hex doctor_name) ""

/-- Python dict assignment `d[k] = v`: replace in place, or append. -/
def setKey (kvs : List (String × Json)) (k : String) (v : Json) : List (String × Json) :=
  if kvs.any fun p => p.1 == k then kvs.map fun p => if p.1 == k then (k, v) else p
  else kvs ++ [(k, v)]

/-- The body of `generate_avatar_from_description`'s `try` block: ask
Gemini for style parameters, fence-strip and parse them, build the DiceBear
URL, and record the method tag `dicebear-ai` in the parameter dict.
`.get` on a non-dict reply raises. -/
def dicebear_ai_attempt (ext : Ext) (description doctor_name : String) :
    Except String (String × Json) :=
  match ext.gen (style_prompt description) with
  | .error e => .error e
  | .ok t =>
    match ext.jp (clean_response t) with
    | none => .error "Expecting value"
    | some (.obj kvs) =>
      let style := ((kvs.find? fun p => p.1 == "style").map (·.2)).getD (.str "avataaars")
      let seed :=
        ((kvs.find? fun p => p.1 == "seed").map (·.2)).getD (.str (ext.md5hex doctor_name))
      let bg :=
        ((kvs.find? fun p => p.1 == "background_color").map (·.2)).getD (.str "3b82f6")
      let avatar_url := "https://api.dicebear.com/7.x/" ++ jstr style ++ "/svg?seed=" ++
        jstr seed ++ "&backgroundColor=" ++ jstr bg
      .ok (avatar_url, .obj (setKey kvs "method" (.str "dicebear-ai")))
    | some j => .error (attrErrorGet j)

/-- `generate_avatar_from_description`: the avatar fallback chain. Without
a client: MD5-hashed sample image, then a plain DiceBear URL. With a
client: AI style selection, then an AI gender-matched sample image, then a
DiceBear URL seeded from the description. Total by construction: every
failure is caught and degrades to the next tier. -/
def generate_avatar_from_description (ext : Ext) (description doctor_name : String) :
    String × Json :=
  if !ext.client then
    match ext.staticUrl (sample_images.getD (hashIndex ext.md5hex doctor_name) "") with
    | .ok avatar_url =>
        (avatar_url, .obj [("method", .str "sample-image"), ("source", .str "static")])
    | .error _ =>
        ("https://api.dicebear.com/7.x/avataaars/svg?seed=" ++ ext.md5hex doctor_name,
         .obj [("method", .str "dicebear-simple")])
  else
    match dicebear_ai_attempt ext description doctor_name with
    | .ok r => r
    | .error _ =>
      match ext.staticUrl (select_sample_image_by_gender ext doctor_name description) with
      | .ok avatar_url =>
          (avatar_url, .obj [("method", .str "sample-image-fallback"), ("source", .str "static")])
      | .error _ =>
          ("https://api.dicebear.com/7.x/avataaars/svg?seed=" ++ ext.md5hex description,
           .obj [("method", .str "dicebear-fallback")])

/-- The `method` tag recorded in an avatar parameter dict. -/
def methodTag (params : Json) : String :=
  match params with
  | .obj kvs =>
    match kvs.find? fun p => p.1 == "method" with
    | some (_, .str s) => s
    | _ => ""
  | _ => ""

/-- The method-tag vocabulary of the avatar resolver. -/
def avatarMethods : List String :=
  ["sample-image", "dicebear-simple", "dicebear-ai", "sample-image-fallback", "dicebear-fallback"]

/-- The fixed system instructions of the `chatbot` view. -/
def SYSTEM_PROMPT : String :=
  "You are an AI medical assistant for MediConnect, a doctor finder platform.\n\n" ++
  "Your capabilities:\n1. Help users find doctors by understanding natural language queries\n" ++
  "2. Search the database when users ask for doctor recommendations\n" ++
  "3. Provide friendly, helpful medical guidance (not medical advice)\n\n" ++
  "When users ask to find doctors, you should:\n" ++
  "- Extract: specialty, city, max fees, min rating from their query\n" ++
  "- Respond in JSON format for database search\n" ++
  "- After showing results, continue natural conversation\n\n" ++
  "Response Formats:\n\n1. FOR DOCTOR SEARCH (when user asks to find/search/show doctors):\n" ++
  "Respond ONLY with valid JSON:\n" ++
  "\x7b\n    \"action\": \"search\",\n    \"specialty\": \"pediatrician\" or null,\n" ++
  "    \"city\": \"New York\" or null,\n    \"max_fees\": 200 or null,\n" ++
  "    \"min_rating\": 4.5 or null,\n    \"message\": \"Looking for pediatricians in New York...\"\n\x7d\n\n" ++
  "2. FOR REGULAR CONVERSATION:\n" ++
  "\x7b\n    \"action\": \"chat\",\n    \"message\": \"Your friendly response here\"\n\x7d\n\n" ++
  "IMPORTANT:\n- Always respond with valid JSON only\n" ++
  "- Never include markdown, code blocks, or extra text\n" ++
  "- Be conversational but concise\n- Encourage users to search for doctors when appropriate\n"

/-- `get_database_summary`: record count plus up to 10 distinct specialties
and cities (the `try` body; the modelled store cannot raise). -/
def get_database_summary (store : List Contact) : String :=
  "\nDatabase: " ++ toString store.length ++ " doctors. Specialties: " ++
  String.intercalate ", " ((store.map (·.specialty)).dedup.take 10) ++ ". Cities: " ++
  String.intercalate ", " ((store.map (·.city)).dedup.take 10) ++ "."

/-- `chat_history[-6:]`: the context window sent to the model. -/
def contextTurns (h : List Turn) : List Turn := h.drop (h.length - 6)

/-- `chat_history[-20:]`: the persisted-history cap. -/
def trimHistory (h : List Turn) : List Turn := h.drop (h.length - 20)

/-- One `role: content` line of the prompt's conversation section. -/
def turnLine (t : Turn) : String := t.role ++ ": " ++ t.content ++ "\n"

/-- The prompt assembled by the `chatbot` view: system instructions, the
database summary, the last six history turns, the new user line. -/
def buildContext (store : List Contact) (h : List Turn) (user_input : String) : String :=
  SYSTEM_PROMPT ++ get_database_summary store ++ "\n\nConversation:\n" ++
  String.join ((contextTurns h).map turnLine) ++ "User: " ++ user_input ++ "\nAssistant:"

/-- One card of `generate_doctor_cards_html` (markup abbreviated to the
rendered fields; no claim depends on the exact tag text). -/
def doctor_card (imgOf : String → String) (doc : Contact) : String :=
  "<div class=\"doctor-result\"><img src=\"" ++ imgOf doc.full_name ++ "\" alt=\"" ++
  doc.full_name ++ "\" class=\"result-avatar\"><div class=\"result-info\">" ++
  "<div class=\"result-name\">" ++ doc.full_name ++ "</div>" ++
  "<div class=\"result-specialty\">" ++ doc.specialty ++ "</div>" ++
  "<div class=\"result-details\"><div class=\"result-detail\">" ++ doc.city ++ "</div>" ++
  "<div class=\"result-detail\">" ++ toString doc.rating ++ "</div>" ++
  "<div class=\"result-detail\">$" ++ toString doc.fees ++ "</div></div>" ++
  "<a class=\"result-link\" href=\"/profile/" ++ toString doc.id ++ "/\">View Profile</a>" ++
  "</div></div>"

/-- `generate_doctor_cards_html`: a "no results" paragraph for an empty
list, else the concatenated cards. -/
def generate_doctor_cards_html (imgOf : String → String) (doctors : List Contact) : String :=
  if doctors.isEmpty then
    "<p>No doctors found matching your criteria. Try adjusting your search!</p>"
  else String.join (doctors.map (doctor_card imgOf))

/-- What one POST to the `chatbot` view produces: the rendered user and bot
messages and the persisted history it leaves behind. -/
structure ChatOutcome where
  userMsg : String
  botMsg : String
  history : List Turn
deriving DecidableEq, Repr

/-- The part of the `chatbot` view's `try` block after the model call:
parse the reply, branch on the action, and produce the bot reply together
with the message recorded in history. An `AttributeError` from `.get` on a
non-dict parsed reply, or a failure inside the search, propagates to the
outer handler. -/
def chat_success_body (ext : Ext) (store : List Contact) (ai_response : String) :
    Except String (String × String) :=
  let parsed := parse_ai_response ext.jp ai_response
  match jGet parsed "action" with
  | .error e => .error e
  | .ok action =>
    if jEqStr action "search" then
      match search_doctors store parsed with
      | .error e => .error e
      | .ok doctors =>
        match jGet parsed "message" with
        | .error e => .error e
        | .ok m =>
          let intro :=
            match m with
            | some v => jstr v
            | none => "Here are the doctors I found:"
          let cards := generate_doctor_cards_html ext.imgOf doctors
          .ok ("<div style=\x27margin-bottom: 12px;\x27>" ++ intro ++ "</div>" ++ cards,
               match m with | some v => jstr v | none => ai_response)
    else
      match jGet parsed "message" with
      | .error e => .error e
      | .ok m =>
        let reply := match m with | some v => jstr v | none => ai_response
        .ok (reply, reply)

/-- One POST to the `chatbot` view: the unavailable-client message, or the
model call and reply handling wrapped in the outer exception handler; only
a successful exchange appends to and re-trims the session history. -/
def chatbot_turn (ext : Ext) (store : List Contact) (history : List Turn) (user_input : String) :
    ChatOutcome :=
  if !ext.client then
    ⟨user_input, "AI service unavailable. Please install: pip install -U google-genai", history⟩
  else
    match ext.gen (buildContext store history user_input) with
    | .error e => ⟨user_input, "Sorry, I encountered an error: " ++ e, history⟩
    | .ok ai_response =>
      match chat_success_body ext store ai_response with
      | .error e => ⟨user_input, "Sorry, I encountered an error: " ++ e, history⟩
      | .ok (bot_reply, hist_msg) =>
        ⟨user_input, bot_reply,
         trimHistory (history ++ [⟨"User", user_input⟩, ⟨"Assistant", hist_msg⟩])⟩

/-! Concrete fixtures used to instantiate the theorems below. -/

/-- A filter whose only present field is a zero fee cap. -/
def zero_fee_filter : SearchFilter := ⟨none, none, some 0, none⟩

/-- A record whose fees are strictly positive. -/
def pricey_contact : Contact :=
  ⟨1, "Dr. Ada Wong", "Cardiologist", "Chicago", "1 Clinic Way", 4, 50, "555-0100"⟩

/-- The all-absent filter submitted by an empty recommendation form. -/
def empty_filter : SearchFilter := ⟨none, none, none, none⟩

/-- A record matching the query "derma" only through its specialty. -/
def derma_contact : Contact :=
  ⟨2, "Dr. John Smith", "Dermatologist", "Boston", "12 Main St", 4, 100, "555-0101"⟩

/-- Oracles for a configured client whose generation call always raises. -/
def extDown : Ext :=
  ⟨true, fun _ => .error "503 quota exceeded", fun _ => .ok "/static/x", fun _ => none,
   fun _ => "0a", fun _ => "img.png"⟩

/-- Oracles for a configured client that replies with a JSON array. -/
def extArr : Ext :=
  ⟨true, fun _ => .ok "[1, 2, 3]", fun _ => .ok "/static/x", fun _ => some (Json.arr []),
   fun _ => "0a", fun _ => "img.png"⟩

/-- Oracles for a configured client that replies with plain prose. -/
def extChat : Ext :=
  ⟨true, fun _ => .ok "Hello! How can I help you today?", fun _ => .ok "/static/x",
   fun _ => none, fun _ => "0a", fun _ => "img.png"⟩

/-- The session history after n successful chatbot exchanges starting from
an empty session. -/
def chatN : Nat → List Turn
  | 0 => []
  | n + 1 => (chatbot_turn extChat [] (chatN n) "hi").history

/-! Theorems. -/

/-- C1: a model reply that does not decode as JSON after code-fence
stripping yields a chat descriptor whose message is the raw reply text; the
decode error is swallowed and never surfaced to the caller. -/
theorem parse_unparseable_falls_back_to_chat
    (jp : String → Option Json) (reply : String)
    (h : jp (clean_response reply) = none) :
    parse_ai_response jp reply =
      Json.obj [("action", Json.str "chat"), ("message", Json.str reply)] := by
  simp [parse_ai_response, h]

/-- C1 witness: a plain-prose reply under a decoder that rejects it. -/
theorem parse_unparseable_falls_back_to_chat_witness :
    parse_ai_response (fun _ => none) "I am sorry, I cannot help with that." =
      Json.obj [("action", Json.str "chat"),
        ("message", Json.str "I am sorry, I cannot help with that.")] :=
  parse_unparseable_falls_back_to_chat (fun _ => none) _ rfl

/-- C7: when the text-generation call raises, the chatbot answers with a
single apologetic message carrying the failure description, the request
completes, and the persisted session history is left unchanged. -/
theorem chat_external_failure_is_apologetic
    (ext : Ext) (store : List Contact) (history : List Turn) (user_input e : String)
    (hc : ext.client = true)
    (hg : ext.gen (buildContext store history user_input) = .error e) :
    chatbot_turn ext store history user_input =
      ⟨user_input, "Sorry, I encountered an error: " ++ e, history⟩ := by
  simp [chatbot_turn, hc, hg]

/-- C7 witness: a quota failure on a concrete turn. -/
theorem chat_external_failure_is_apologetic_witness :
    chatbot_turn extDown [] [] "find me a doctor" =
      ⟨"find me a doctor", "Sorry, I encountered an error: 503 quota exceeded", []⟩ :=
  chat_external_failure_is_apologetic extDown [] [] "find me a doctor" "503 quota exceeded"
    rfl rfl

/-- C8: update, delete and detail on an id with no matching record each
propagate a not-found condition (`DoesNotExist` / `Http404`) to the HTTP
boundary. -/
theorem missing_id_propagates_not_found
    (store : List Contact) (id : Nat) (fields : ContactFields)
    (h : ∀ c ∈ store, c.id ≠ id) :
    update_contact store id fields = .error "Contact matching query does not exist." ∧
    delete_contact store id = .error "Contact matching query does not exist." ∧
    contact_detail store id = .error "Http404" := by
  have hfind : db_get store id = none := by
    rw [db_get, List.find?_eq_none]
    intro c hc
    simpa using h c hc
  refine ⟨?_, ?_, ?_⟩ <;> simp [update_contact, delete_contact, contact_detail, hfind]

/-- C8 witness: id 1 on an empty store. -/
theorem missing_id_propagates_not_found_witness :
    update_contact [] 1 ⟨"", "", "", "", 0, 0, ""⟩ =
        .error "Contact matching query does not exist." ∧
    delete_contact [] 1 = .error "Contact matching query does not exist." ∧
    contact_detail [] 1 = .error "Http404" :=
  missing_id_propagates_not_found [] 1 ⟨"", "", "", "", 0, 0, ""⟩ (by simp)

theorem mem_applySpecialty {f : SearchFilter} {l : List Contact} {c : Contact} :
    c ∈ applySpecialty f l ↔
      c ∈ l ∧ (truthyStr f.specialty = true → icontains c.specialty (f.specialty.getD "") = true) := by
  unfold applySpecialty
  split <;> rename_i h <;> simp [List.mem_filter, h]

theorem mem_applyCity {f : SearchFilter} {l : List Contact} {c : Contact} :
    c ∈ applyCity f l ↔
      c ∈ l ∧ (truthyStr f.city = true → icontains c.city (f.city.getD "") = true) := by
  unfold applyCity
  split <;> rename_i h <;> simp [List.mem_filter, h]

theorem mem_applyMaxFees {f : SearchFilter} {l : List Contact} {c : Contact} :
    c ∈ applyMaxFees f l ↔
      c ∈ l ∧ (truthyNum f.max_fees = true → c.fees ≤ f.max_fees.getD 0) := by
  unfold applyMaxFees
  split <;> rename_i h <;> simp [List.mem_filter, h]

theorem mem_applyMinRating {f : SearchFilter} {l : List Contact} {c : Contact} :
    c ∈ applyMinRating f l ↔
      c ∈ l ∧ (truthyNum f.min_rating = true → f.min_rating.getD 0 ≤ c.rating) := by
  unfold applyMinRating
  split <;> rename_i h <;> simp [List.mem_filter, h]

/-- C2 (amended): a record appears in the filtered recommendation result
iff it is stored and satisfies the predicate of every present-and-truthy
filter field; fields that are absent, empty or zero impose no constraint. -/
theorem search_filter_membership (f : SearchFilter) (l : List Contact) (c : Contact) :
    c ∈ recommend_results f l ↔
      c ∈ l ∧
        (truthyStr f.specialty = true → icontains c.specialty (f.specialty.getD "") = true) ∧
        (truthyStr f.city = true → icontains c.city (f.city.getD "") = true) ∧
        (truthyNum f.max_fees = true → c.fees ≤ f.max_fees.getD 0) ∧
        (truthyNum f.min_rating = true → f.min_rating.getD 0 ≤ c.rating) := by
  unfold recommend_results order_by_rating_fees filter_contacts
  rw [List.mem_mergeSort, mem_applyMinRating, mem_applyMaxFees, mem_applyCity,
    mem_applySpecialty]
  tauto

/-- C2 counterexample: with `max_fees` present as 0, a record with fees 50
still appears in the result even though it violates the present field's
predicate `fees ≤ 0`: the truthiness test skips a zero bound, so the
claim's present-fields iff fails as stated. -/
theorem search_filter_present_zero_cex :
    zero_fee_filter.max_fees = some 0 ∧
    pricey_contact ∈ recommend_results zero_fee_filter [pricey_contact] ∧
    ¬ (pricey_contact.fees ≤ (0 : ℚ)) := by
  refine ⟨rfl, ?_, by decide⟩
  rw [recommend_results, order_by_rating_fees, List.mem_mergeSort]
  decide

theorem rankLE_total (a b : Contact) : rankLE a b || rankLE b a := by
  simp only [rankLE, Bool.or_eq_true, Bool.and_eq_true, decide_eq_true_eq]
  rcases lt_trichotomy a.rating b.rating with h | h | h
  · tauto
  · rcases le_total a.fees b.fees with hf | hf
    · tauto
    · exact Or.inr (Or.inr ⟨h.symm, hf⟩)
  · tauto

theorem rankLE_trans (a b c : Contact) : rankLE a b → rankLE b c → rankLE a c := by
  simp only [rankLE, Bool.or_eq_true, Bool.and_eq_true, decide_eq_true_eq]
  rintro (h1 | ⟨h1, h1f⟩) (h2 | ⟨h2, h2f⟩)
  · exact Or.inl (h2.trans h1)
  · exact Or.inl (h2 ▸ h1)
  · exact Or.inl (h1 ▸ h2)
  · exact Or.inr ⟨h1.trans h2, h1f.trans h2f⟩

/-- The ordering guarantee of `order_by('-rating', 'fees')` on any fetched
list. -/
theorem pairwise_rankOrder_mergeSort (l : List Contact) :
    (l.mergeSort rankLE).Pairwise rankOrder := by
  have h := @List.sorted_mergeSort Contact rankLE rankLE_trans rankLE_total l
  refine h.imp ?_
  intro a b hab
  simp only [rankLE, Bool.or_eq_true, Bool.and_eq_true, decide_eq_true_eq] at hab
  rcases hab with h1 | ⟨h1, h2⟩
  · exact ⟨le_of_lt h1, fun he => absurd (he ▸ h1) (lt_irrefl _)⟩
  · exact ⟨le_of_eq h1.symm, fun _ => h2⟩

/-- C4: with every filter field absent, the search returns a permutation of
the whole store (no record omitted), ordered by rating descending and fees
ascending within equal ratings. -/
theorem search_no_filters_returns_all (l : List Contact) :
    (recommend_results empty_filter l).Perm l ∧
    (recommend_results empty_filter l).Pairwise rankOrder := by
  have hf : filter_contacts empty_filter l = l := by
    simp [filter_contacts, applySpecialty, applyCity, applyMaxFees, applyMinRating,
      empty_filter, truthyStr, truthyNum]
  constructor
  · simpa [recommend_results, order_by_rating_fees, hf] using List.mergeSort_perm l rankLE
  · simpa [recommend_results, order_by_rating_fees, hf] using pairwise_rankOrder_mergeSort l

/-- C5: for every filter, both the uncapped recommendation result and the
capped AI search result are pairwise ordered: a strictly higher rating
precedes, and among equal ratings lower fees precede. -/
theorem search_results_ordering :
    (∀ (f : SearchFilter) (l : List Contact), (recommend_results f l).Pairwise rankOrder) ∧
    (∀ (store : List Contact) (filters : Json) (res : List Contact),
      search_doctors store filters = .ok res → res.Pairwise rankOrder) := by
  constructor
  · intro f l
    exact pairwise_rankOrder_mergeSort _
  · intro store filters res h
    unfold search_doctors at h
    cases hf : jfilter_contacts filters store with
    | error e => simp [hf] at h
    | ok qs =>
      simp only [hf] at h
      cases h
      exact List.Pairwise.sublist (List.take_sublist _ _) (pairwise_rankOrder_mergeSort qs)

/-- C9: the free-text search returns exactly the records whose full name,
specialty or city contains the query case-insensitively (logical OR); in
particular "derma" matches a record only through its "Dermatologist"
specialty, its name and city not containing the substring. -/
theorem free_text_search_or_semantics :
    (∀ (store : List Contact) (q : String) (c : Contact),
      c ∈ search_view store q ↔
        c ∈ store ∧
          (icontains c.full_name q || icontains c.specialty q || icontains c.city q) = true) ∧
    (derma_contact ∈ search_view [derma_contact] "derma" ∧
      icontains derma_contact.full_name "derma" = false ∧
      icontains derma_contact.city "derma" = false) := by
  constructor
  · intro store q c
    simp [search_view, List.mem_filter]
  · refine ⟨?_, ?_, ?_⟩ <;> decide

/-- C6: the model context holds at most the last six persisted turns (and
is a suffix of the history); a successful exchange persists exactly the
last twenty turns of the appended history, oldest dropped first; and after
eleven successful exchanges from an empty session the history holds
exactly twenty turns, of which the context window is exactly the last
six. -/
theorem chat_history_windows :
    (∀ h : List Turn, (contextTurns h).length ≤ 6 ∧ contextTurns h <:+ h) ∧
    (∀ (ext : Ext) (store : List Contact) (h : List Turn) (u r : String)
        (p : String × String),
      ext.client = true → ext.gen (buildContext store h u) = .ok r →
      chat_success_body ext store r = .ok p →
      (chatbot_turn ext store h u).history =
          trimHistory (h ++ [⟨"User", u⟩, ⟨"Assistant", p.2⟩]) ∧
        (chatbot_turn ext store h u).history.length ≤ 20 ∧
        (chatbot_turn ext store h u).history <:+ h ++ [⟨"User", u⟩, ⟨"Assistant", p.2⟩]) ∧
    ((chatN 11).length = 20 ∧ contextTurns (chatN 11) = (chatN 11).drop 14 ∧
      (contextTurns (chatN 11)).length = 6) := by
  refine ⟨?_, ?_, ?_, ?_, ?_⟩
  · intro h
    constructor
    · simp [contextTurns]
      omega
    · exact List.drop_suffix _ _
  · intro ext store h u r p hc hg hb
    obtain ⟨br, hm⟩ := p
    have hout : chatbot_turn ext store h u =
        ⟨u, br, trimHistory (h ++ [⟨"User", u⟩, ⟨"Assistant", hm⟩])⟩ := by
      simp [chatbot_turn, hc, hg, hb]
    rw [hout]
    refine ⟨rfl, ?_, ?_⟩
    · simp [trimHistory]
      omega
    · exact List.drop_suffix _ _
  · decide
  · decide
  · decide

/-- C10: a reply that decodes to a non-dict JSON value is returned as-is
by `parse_ai_response` (no chat fallback wraps it); the `.get` on it raises
an `AttributeError`, the outer handler turns that into the error-describing
bot message, and the session history is left unchanged. -/
theorem chat_nonobject_reply_errors
    (ext : Ext) (store : List Contact) (history : List Turn) (user_input reply : String)
    (j : Json)
    (hc : ext.client = true)
    (hg : ext.gen (buildContext store history user_input) = .ok reply)
    (hp : ext.jp (clean_response reply) = some j)
    (hobj : ∀ kvs, j ≠ Json.obj kvs) :
    parse_ai_response ext.jp reply = j ∧
    jGet j "action" = .error (attrErrorGet j) ∧
    chatbot_turn ext store history user_input =
      ⟨user_input, "Sorry, I encountered an error: " ++ attrErrorGet j, history⟩ := by
  have hparse : parse_ai_response ext.jp reply = j := by
    simp [parse_ai_response, hp]
  have hget : jGet j "action" = .error (attrErrorGet j) := by
    cases j <;> first | rfl | exact absurd rfl (hobj _)
  have hbody : chat_success_body ext store reply = .error (attrErrorGet j) := by
    simp [chat_success_body, hparse, hget]
  refine ⟨hparse, hget, ?_⟩
  simp [chatbot_turn, hc, hg, hbody]

/-- C10 witness: a reply decoding to an empty JSON array. -/
theorem chat_nonobject_reply_errors_witness :
    parse_ai_response extArr.jp "[1, 2, 3]" = Json.arr [] ∧
    jGet (Json.arr []) "action" = .error (attrErrorGet (Json.arr [])) ∧
    chatbot_turn extArr [] [] "hello" =
      ⟨"hello", "Sorry, I encountered an error: " ++ attrErrorGet (Json.arr []), []⟩ :=
  chat_nonobject_reply_errors extArr [] [] "hello" "[1, 2, 3]" (Json.arr [])
    rfl rfl rfl (fun _ h => Json.noConfusion h)

theorem find_map_setKey (kvs : List (String × Json)) (k : String) (v : Json)
    (hany : kvs.any (fun p => p.1 == k) = true) :
    (kvs.map fun p => if p.1 == k then (k, v) else p).find? (fun p => p.1 == k) =
      some (k, v) := by
  induction kvs with
  | nil => simp at hany
  | cons hd tl ih =>
    by_cases h : (hd.1 == k) = true
    · simp only [List.map_cons, h, if_true]
      rw [List.find?_cons_of_pos]
      simp
    · have h2 : (hd.1 == k) = false := by simpa using h
      simp only [List.any_cons, h2, Bool.false_or] at hany
      simp only [List.map_cons, h2, Bool.false_eq_true, if_false]
      rw [List.find?_cons_of_neg]
      · exact ih hany
      · simp [h2]

theorem find_append_key (kvs : List (String × Json)) (k : String) (v : Json)
    (hnone : kvs.any (fun p => p.1 == k) = false) :
    (kvs ++ [(k, v)]).find? (fun p => p.1 == k) = some (k, v) := by
  induction kvs with
  | nil => simp
  | cons hd tl ih =>
    simp only [List.any_cons, Bool.or_eq_false_iff] at hnone
    rw [List.cons_append, List.find?_cons_of_neg]
    · exact ih hnone.2
    · simp [hnone.1]

theorem methodTag_setKey (kvs : List (String × Json)) (m : String) :
    methodTag (Json.obj (setKey kvs "method" (Json.str m))) = m := by
  have hfind : (setKey kvs "method" (Json.str m)).find? (fun p => p.1 == "method") =
      some ("method", Json.str m) := by
    unfold setKey
    by_cases h : (kvs.any fun p => p.1 == "method") = true
    · rw [if_pos h]
      exact find_map_setKey kvs "method" (Json.str m) h
    · have h2 : (kvs.any fun p => p.1 == "method") = false := Bool.eq_false_iff.mpr h
      rw [if_neg h]
      exact find_append_key kvs "method" (Json.str m) h2
  simp [methodTag, hfind]

theorem dicebear_ai_attempt_method (ext : Ext) (d n : String) (r : String × Json)
    (h : dicebear_ai_attempt ext d n = .ok r) : methodTag r.2 = "dicebear-ai" := by
  obtain ⟨r1, r2⟩ := r
  rcases hg : ext.gen (style_prompt d) with e | t
  · simp [dicebear_ai_attempt, hg] at h
  · rcases hp : ext.jp (clean_response t) with _ | params
    · simp [dicebear_ai_attempt, hg, hp] at h
    · cases params with
      | obj kvs =>
        simp only [dicebear_ai_attempt, hg, hp, Except.ok.injEq, Prod.mk.injEq] at h
        rw [← h.2]
        exact methodTag_setKey kvs "dicebear-ai"
      | null => simp [dicebear_ai_attempt, hg, hp, attrErrorGet] at h
      | bool b => simp [dicebear_ai_attempt, hg, hp, attrErrorGet] at h
      | num q => simp [dicebear_ai_attempt, hg, hp, attrErrorGet] at h
      | str s => simp [dicebear_ai_attempt, hg, hp, attrErrorGet] at h
      | arr xs => simp [dicebear_ai_attempt, hg, hp, attrErrorGet] at h

/-- C3: avatar resolution is total: for every configuration of the client
and any pattern of external-call failures it returns an avatar URL paired
with a method tag drawn from the fixed vocabulary, and each failing tier
falls through to the documented next tier. -/
theorem avatar_resolution_always_degrades :
    (∀ (ext : Ext) (description doctor_name : String),
      methodTag (generate_avatar_from_description ext description doctor_name).2
        ∈ avatarMethods) ∧
    (∀ (ext : Ext) (description doctor_name u : String),
      ext.client = false → (∀ s, ext.staticUrl s = .ok u) →
      methodTag (generate_avatar_from_description ext description doctor_name).2 =
        "sample-image") ∧
    (∀ (ext : Ext) (description doctor_name e : String),
      ext.client = false → (∀ s, ext.staticUrl s = .error e) →
      methodTag (generate_avatar_from_description ext description doctor_name).2 =
        "dicebear-simple") ∧
    (∀ (ext : Ext) (description doctor_name e u : String),
      ext.client = true → (∀ s, ext.gen s = .error e) → (∀ s, ext.staticUrl s = .ok u) →
      methodTag (generate_avatar_from_description ext description doctor_name).2 =
        "sample-image-fallback") ∧
    (∀ (ext : Ext) (description doctor_name e eu : String),
      ext.client = true → (∀ s, ext.gen s = .error e) → (∀ s, ext.staticUrl s = .error eu) →
      methodTag (generate_avatar_from_description ext description doctor_name).2 =
        "dicebear-fallback") := by
  refine ⟨?_, ?_, ?_, ?_, ?_⟩
  · intro ext d n
    by_cases hc : ext.client = true
    · rcases hda : dicebear_ai_attempt ext d n with e | r
      · rcases hsu : ext.staticUrl (select_sample_image_by_gender ext n d) with eu | u
        · simp [generate_avatar_from_description, hc, hda, hsu]
          decide
        · simp [generate_avatar_from_description, hc, hda, hsu]
          decide
      · have hm := dicebear_ai_attempt_method ext d n r hda
        simp [generate_avatar_from_description, hc, hda, hm, avatarMethods]
    · have hc2 : ext.client = false := Bool.eq_false_iff.mpr hc
      rcases hsu : ext.staticUrl (sample_images.getD (hashIndex ext.md5hex n) "") with eu | u
      · simp only [generate_avatar_from_description, hc2, hsu]
        simp [methodTag, avatarMethods]
      · simp only [generate_avatar_from_description, hc2, hsu]
        simp [methodTag, avatarMethods]
  · intro ext d n u hc hsu
    simp [generate_avatar_from_description, hc, hsu]
    decide
  · intro ext d n e hc hsu
    simp [generate_avatar_from_description, hc, hsu]
    decide
  · intro ext d n e u hc hgen hsu
    have hda : dicebear_ai_attempt ext d n = .error e := by
      simp [dicebear_ai_attempt, hgen (style_prompt d)]
    simp [generate_avatar_from_description, hc, hda, hsu]
    decide
  · intro ext d n e eu hc hgen hsu
    have hda : dicebear_ai_attempt ext d n = .error e := by
      simp [dicebear_ai_attempt, hgen (style_prompt d)]
    simp [generate_avatar_from_description, hc, hda, hsu]
    decide

end MediConnect
